import Mathlib

/-!
Shallow embedding of the DICOM viewer frontend's core logic:
the per-pixel window/level transform (`applyWindowLevel` in Viewer2D /
GridViewer), the two variants of the global reducer (`dicomReducer` in
DICOMContext.tsx, single-select, and the multi-cell variant), the playback
tick (Controls in MetadataPanel.tsx), the uniform grid cell mapping
(GridViewer), the per-cell series reassignment (`loadSeriesForCell`), and
the unguarded asynchronous composite pipeline (`loadAndDisplayImage`).

JS numbers are embedded as ℚ (window parameters) and ℤ (indices, sizes);
pixel samples of an ImageData buffer are bytes in [0, 255] embedded as ℕ.
-/

namespace DicomViewer

/-- JS `Math.round`: rounds half toward positive infinity, `⌊x + 1/2⌋`. -/
def jsRound (q : ℚ) : ℤ := ⌊q + 1 / 2⌋

/-- One RGBA pixel of an `ImageData` buffer (`Uint8ClampedArray` samples). -/
structure Pixel where
  r : ℕ
  g : ℕ
  b : ℕ
  a : ℕ
deriving Repr, DecidableEq

/-- Assignment into a `Uint8ClampedArray` clamps the value into [0, 255]. -/
def clampByte (z : ℤ) : ℕ := (min (max z 0) 255).toNat

/-- Per-sample core of `applyWindowLevel` (Viewer2D.tsx and GridViewer.tsx,
identical bodies): `windowMin = windowLevel - windowWidth/2`,
`windowMax = windowLevel + windowWidth/2`; values at or below `windowMin`
map to 0, values at or above `windowMax` map to 255, and values strictly
inside the window map linearly via `Math.round`. -/
def windowLevelValue (windowWidth windowLevel gray : ℚ) : ℤ :=
  let windowMin := windowLevel - windowWidth / 2
  let windowMax := windowLevel + windowWidth / 2
  if gray ≤ windowMin then 0
  else if windowMax ≤ gray then 255
  else jsRound ((gray - windowMin) / (windowMax - windowMin) * 255)

/-- `applyWindowLevel`: for each pixel the red channel is read as the gray
sample, the transformed value is written to R, G and B, and alpha is passed
through unchanged. -/
def applyWindowLevel (imageData : List Pixel) (windowWidth windowLevel : ℚ) :
    List Pixel :=
  imageData.map (fun p =>
    let gray : ℚ := (p.r : ℚ)
    let newValue := windowLevelValue windowWidth windowLevel gray
    { r := clampByte newValue, g := clampByte newValue, b := clampByte newValue,
      a := p.a })

lemma windowLevelValue_eq (ww wl gray : ℚ) :
    windowLevelValue ww wl gray =
      if gray ≤ wl - ww / 2 then 0
      else if wl + ww / 2 ≤ gray then 255
      else jsRound ((gray - (wl - ww / 2)) /
        ((wl + ww / 2) - (wl - ww / 2)) * 255) := rfl

lemma windowLevelValue_nonneg (ww wl gray : ℚ) (hww : 0 < ww) :
    0 ≤ windowLevelValue ww wl gray := by
  rw [windowLevelValue_eq]
  split_ifs with h1 h2
  · exact le_refl 0
  · norm_num
  · push_neg at h1 h2
    have hden : (0 : ℚ) < (wl + ww / 2) - (wl - ww / 2) := by linarith
    have hnum : (0 : ℚ) < gray - (wl - ww / 2) := by linarith
    have ht : (0 : ℚ) < (gray - (wl - ww / 2)) / ((wl + ww / 2) - (wl - ww / 2)) * 255 := by
      positivity
    exact Int.le_floor.mpr (by push_cast; linarith)

lemma windowLevelValue_le (ww wl gray : ℚ) (hww : 0 < ww) :
    windowLevelValue ww wl gray ≤ 255 := by
  rw [windowLevelValue_eq]
  split_ifs with h1 h2
  · norm_num
  · exact le_refl 255
  · push_neg at h1 h2
    have hden : (0 : ℚ) < (wl + ww / 2) - (wl - ww / 2) := by linarith
    have hfrac : (gray - (wl - ww / 2)) / ((wl + ww / 2) - (wl - ww / 2)) < 1 := by
      rw [div_lt_one hden]; linarith
    have ht : (gray - (wl - ww / 2)) / ((wl + ww / 2) - (wl - ww / 2)) * 255 < 255 := by
      nlinarith
    have : (⌊(gray - (wl - ww / 2)) / ((wl + ww / 2) - (wl - ww / 2)) * 255 + 1 / 2⌋ : ℤ) < 256 := by
      rw [Int.floor_lt]; push_cast; linarith
    unfold jsRound
    omega

lemma windowLevelValue_mono (ww wl : ℚ) (hww : 0 < ww) {g1 g2 : ℚ}
    (hg : g1 ≤ g2) :
    windowLevelValue ww wl g1 ≤ windowLevelValue ww wl g2 := by
  by_cases hlo : g1 ≤ wl - ww / 2
  · have h1 : windowLevelValue ww wl g1 = 0 := by
      rw [windowLevelValue_eq, if_pos hlo]
    rw [h1]; exact windowLevelValue_nonneg ww wl g2 hww
  · by_cases hhi : wl + ww / 2 ≤ g2
    · have h2 : windowLevelValue ww wl g2 = 255 := by
        rw [windowLevelValue_eq,
          if_neg (by push_neg at hlo ⊢; linarith), if_pos hhi]
      rw [h2]; exact windowLevelValue_le ww wl g1 hww
    · push_neg at hlo hhi
      have hlo2 : wl - ww / 2 < g2 := lt_of_lt_of_le hlo hg
      have hhi1 : g1 < wl + ww / 2 := lt_of_le_of_lt hg hhi
      have e1 : windowLevelValue ww wl g1 =
          jsRound ((g1 - (wl - ww / 2)) / ((wl + ww / 2) - (wl - ww / 2)) * 255) := by
        rw [windowLevelValue_eq,
          if_neg (not_le.mpr hlo), if_neg (not_le.mpr hhi1)]
      have e2 : windowLevelValue ww wl g2 =
          jsRound ((g2 - (wl - ww / 2)) / ((wl + ww / 2) - (wl - ww / 2)) * 255) := by
        rw [windowLevelValue_eq,
          if_neg (not_le.mpr hlo2), if_neg (not_le.mpr hhi)]
      rw [e1, e2]
      unfold jsRound
      have hden : (0 : ℚ) < (wl + ww / 2) - (wl - ww / 2) := by linarith
      apply Int.floor_le_floor
      have hq : (g1 - (wl - ww / 2)) / ((wl + ww / 2) - (wl - ww / 2)) ≤
          (g2 - (wl - ww / 2)) / ((wl + ww / 2) - (wl - ww / 2)) := by
        rw [div_le_div_iff₀ hden hden]
        nlinarith
      nlinarith

lemma clampByte_of_bounds {v : ℤ} (h0 : 0 ≤ v) (h255 : v ≤ 255) :
    clampByte v = v.toNat := by
  unfold clampByte
  rw [max_eq_left h0, min_eq_left h255]

/-- C1: for every input raster and all gray samples in [0, 255], with
`windowWidth > 0` the window/level transform yields values in [0, 255],
is monotone non-decreasing in the gray value, maps values at or below
`windowLevel - windowWidth/2` to 0 and values at or above
`windowLevel + windowWidth/2` to 255, and otherwise equals
`round((gray - windowMin) / (windowMax - windowMin) * 255)`; on a raster
the transformed value is written to R, G, B with alpha unchanged. -/
theorem applyWindowLevel_correct (ww wl : ℚ) (hww : 0 < ww) :
    (∀ gray : ℚ, 0 ≤ gray → gray ≤ 255 →
      0 ≤ windowLevelValue ww wl gray ∧ windowLevelValue ww wl gray ≤ 255) ∧
    (∀ g1 g2 : ℚ, g1 ≤ g2 →
      windowLevelValue ww wl g1 ≤ windowLevelValue ww wl g2) ∧
    (∀ gray : ℚ, gray ≤ wl - ww / 2 → windowLevelValue ww wl gray = 0) ∧
    (∀ gray : ℚ, wl + ww / 2 ≤ gray → windowLevelValue ww wl gray = 255) ∧
    (∀ gray : ℚ, wl - ww / 2 < gray → gray < wl + ww / 2 →
      windowLevelValue ww wl gray =
        jsRound ((gray - (wl - ww / 2)) /
          ((wl + ww / 2) - (wl - ww / 2)) * 255)) ∧
    (∀ (imageData : List Pixel) (i : ℕ) (p : Pixel), imageData[i]? = some p →
      (applyWindowLevel imageData ww wl)[i]? =
        some { r := (windowLevelValue ww wl (p.r : ℚ)).toNat,
               g := (windowLevelValue ww wl (p.r : ℚ)).toNat,
               b := (windowLevelValue ww wl (p.r : ℚ)).toNat,
               a := p.a }) := by
  refine ⟨fun gray _ _ => ⟨windowLevelValue_nonneg ww wl gray hww,
      windowLevelValue_le ww wl gray hww⟩,
    fun g1 g2 hg => windowLevelValue_mono ww wl hww hg,
    fun gray h => by rw [windowLevelValue_eq, if_pos h],
    fun gray h => ?_, fun gray h1 h2 => ?_, fun imageData i p hp => ?_⟩
  · have hm : ¬ gray ≤ wl - ww / 2 := by push_neg; linarith
    rw [windowLevelValue_eq, if_neg hm, if_pos h]
  · rw [windowLevelValue_eq, if_neg (not_le.mpr h1), if_neg (not_le.mpr h2)]
  · have hcl : clampByte (windowLevelValue ww wl (p.r : ℚ)) =
        (windowLevelValue ww wl (p.r : ℚ)).toNat :=
      clampByte_of_bounds (windowLevelValue_nonneg ww wl _ hww)
        (windowLevelValue_le ww wl _ hww)
    simp only [applyWindowLevel, List.getElem?_map, hp, Option.map_some']
    simp [hcl]

theorem applyWindowLevel_correct_witness :
    windowLevelValue 100 50 0 = 0 ∧ windowLevelValue 100 50 200 = 255 ∧
    windowLevelValue 100 50 50 =
      jsRound ((50 - (50 - 100 / 2)) /
        ((50 + 100 / 2) - (50 - 100 / 2)) * 255) ∧
    (applyWindowLevel [⟨10, 10, 10, 255⟩] 100 50)[0]? =
      some { r := (windowLevelValue 100 50 10).toNat,
             g := (windowLevelValue 100 50 10).toNat,
             b := (windowLevelValue 100 50 10).toNat, a := 255 } := by
  have h := applyWindowLevel_correct 100 50 (by norm_num)
  exact ⟨h.2.2.1 0 (by norm_num), h.2.2.2.1 200 (by norm_num),
    h.2.2.2.2.1 50 (by norm_num) (by norm_num),
    h.2.2.2.2.2 [⟨10, 10, 10, 255⟩] 0 ⟨10, 10, 10, 255⟩ rfl⟩

/-- C10: the transform never divides by zero even without a zero-width
guard: its division branch runs only when
`windowMin < gray < windowMax`, which forces
`windowMax - windowMin > 0` (equivalently `windowWidth > 0`); with
`windowWidth = 0` every gray value takes the 0 or 255 branch, so the
function is total over all inputs. -/
theorem windowLevel_division_safe (ww wl gray : ℚ) :
    (wl - ww / 2 < gray → gray < wl + ww / 2 →
      0 < (wl + ww / 2) - (wl - ww / 2) ∧ 0 < ww) ∧
    (ww = 0 →
      windowLevelValue ww wl gray = 0 ∨ windowLevelValue ww wl gray = 255) := by
  constructor
  · intro h1 h2
    constructor <;> linarith
  · intro h
    subst h
    rw [windowLevelValue_eq]
    by_cases hg : gray ≤ wl - 0 / 2
    · rw [if_pos hg]
      exact Or.inl rfl
    · rw [if_neg hg, if_pos (by push_neg at hg; norm_num at hg ⊢; linarith)]
      exact Or.inr rfl

theorem windowLevel_division_safe_witness :
    ((0 : ℚ) < (0 + 2 / 2) - (0 - 2 / 2) ∧ (0 : ℚ) < 2) ∧
    (windowLevelValue 0 5 3 = 0 ∨ windowLevelValue 0 5 3 = 255) :=
  ⟨(windowLevel_division_safe 2 0 0).1 (by norm_num) (by norm_num),
   (windowLevel_division_safe 0 5 3).2 rfl⟩

/-! Data model shared by both store variants (DICOMContext.tsx). -/

structure DICOMSeries where
  uid : String
  series_desc : String
  modality : String
  patient_name : String
  patient_id : String
  study_desc : String
  frame_count : ℤ
  examples : List String
deriving Repr, DecidableEq

structure DICOMFrame where
  index : ℤ
  data : String
  width : ℤ
  height : ℤ
deriving Repr, DecidableEq

structure DICOMSession where
  session_id : String
  series : List DICOMSeries
  invalid_files : List String
  total_series : ℤ
deriving Repr, DecidableEq

/-! Single-select store variant (src/fe/src/context/DICOMContext.tsx). -/

structure DICOMState where
  session : Option DICOMSession
  selectedSeries : Option DICOMSeries
  frames : List DICOMFrame
  currentFrameIndex : ℤ
  isLoading : Bool
  error : Option String
  windowWidth : ℚ
  windowLevel : ℚ
  gridSize : ℤ
  isPlaying : Bool
  playSpeed : ℚ
deriving Repr, DecidableEq

inductive DICOMAction where
  | setLoading (payload : Bool)
  | setError (payload : Option String)
  | setSession (payload : DICOMSession)
  | setSelectedSeries (payload : DICOMSeries)
  | setFrames (payload : List DICOMFrame)
  | setCurrentFrame (payload : ℤ)
  | setWindowWidth (payload : ℚ)
  | setWindowLevel (payload : ℚ)
  | setGridSize (payload : ℤ)
  | setPlaying (payload : Bool)
  | setPlaySpeed (payload : ℚ)
  | nextFrame
  | prevFrame
  | resetView
deriving Repr, DecidableEq

def initialState : DICOMState :=
  { session := none, selectedSeries := none, frames := [],
    currentFrameIndex := 0, isLoading := false, error := none,
    windowWidth := 1, windowLevel := 1, gridSize := 1,
    isPlaying := false, playSpeed := 1 }

/-- The reducer of the single-select store variant
(DICOMContext.tsx, `dicomReducer`). -/
def dicomReducer (state : DICOMState) (action : DICOMAction) : DICOMState :=
  match action with
  | .setLoading p => { state with isLoading := p }
  | .setError p => { state with error := p, isLoading := false }
  | .setSession p => { state with session := some p, error := none }
  | .setSelectedSeries p => { state with selectedSeries := some p }
  | .setFrames p => { state with frames := p, currentFrameIndex := 0 }
  | .setCurrentFrame p =>
      { state with
          currentFrameIndex := max 0 (min p ((state.frames.length : ℤ) - 1)) }
  | .setWindowWidth p => { state with windowWidth := p }
  | .setWindowLevel p => { state with windowLevel := p }
  | .setGridSize p => { state with gridSize := max 1 (min 4 p) }
  | .setPlaying p => { state with isPlaying := p }
  | .setPlaySpeed p => { state with playSpeed := max (1 / 10) (min 5 p) }
  | .nextFrame =>
      { state with
          currentFrameIndex := min (state.currentFrameIndex + 1) ((state.frames.length : ℤ) - 1) }
  | .prevFrame =>
      { state with currentFrameIndex := max (state.currentFrameIndex - 1) 0 }
  | .resetView => { state with windowWidth := 1, windowLevel := 1 }

/-! Multi-cell store variant (src/unnamed/part_003, `dicomReducer`).
The two copies in part_003 differ only in an `uploadProgress` field and its
action; the frame, grid and cell logic below is identical in both. JS
objects keyed by cell index are embedded as association lists, where a
spread `{ ...m, [k]: v }` replaces the value at key `k` or appends it. -/

structure CellSeriesSelection where
  seriesUid : String
  frameIndex : ℤ
deriving Repr, DecidableEq

structure CellWindowLevel where
  windowWidth : ℚ
  windowLevel : ℚ
deriving Repr, DecidableEq

/-- JS object update `{ ...m, [k]: v }`, observed through key lookup. -/
def setKey {α : Type} (m : List (ℤ × α)) (k : ℤ) (v : α) : List (ℤ × α) :=
  if m.any (fun q => q.1 == k) then
    m.map (fun q => if q.1 == k then (k, v) else q)
  else m ++ [(k, v)]

structure DICOMStateMulti where
  session : Option DICOMSession
  selectedSeries : Option DICOMSeries
  frames : List DICOMFrame
  currentFrameIndex : ℤ
  isLoading : Bool
  error : Option String
  windowWidth : ℚ
  windowLevel : ℚ
  gridSize : ℤ
  selectedSeriesForCells : List (ℤ × CellSeriesSelection)
  cellWindowLevels : List (ℤ × CellWindowLevel)
  cellFrames : List (ℤ × List DICOMFrame)
deriving Repr, DecidableEq

inductive DICOMActionMulti where
  | setLoading (payload : Bool)
  | setError (payload : Option String)
  | setSession (payload : DICOMSession)
  | setSelectedSeries (payload : DICOMSeries)
  | setFrames (payload : List DICOMFrame)
  | setCurrentFrame (payload : ℤ)
  | setWindowWidth (payload : ℚ)
  | setWindowLevel (payload : ℚ)
  | setGridSize (payload : ℤ)
  | setCellSeries (cellIndex : ℤ) (seriesUid : String) (frameIndex : ℤ)
  | setCellWindowLevel (cellIndex : ℤ) (windowWidth windowLevel : ℚ)
  | setCellFrames (cellIndex : ℤ) (frames : List DICOMFrame)
  | nextFrame
  | prevFrame
  | resetView
deriving Repr, DecidableEq

def defaultCellWindowLevels : List (ℤ × CellWindowLevel) :=
  [(0, ⟨400, 50⟩), (1, ⟨400, 50⟩), (2, ⟨400, 50⟩), (3, ⟨400, 50⟩)]

def initialStateMulti : DICOMStateMulti :=
  { session := none, selectedSeries := none, frames := [],
    currentFrameIndex := 0, isLoading := false, error := none,
    windowWidth := 400, windowLevel := 50, gridSize := 1,
    selectedSeriesForCells :=
      [(0, ⟨"", 0⟩), (1, ⟨"", 0⟩), (2, ⟨"", 0⟩), (3, ⟨"", 0⟩)],
    cellWindowLevels := defaultCellWindowLevels,
    cellFrames := [(0, []), (1, []), (2, []), (3, [])] }

/-- The reducer of the multi-cell store variant (part_003,
`dicomReducer`). -/
def dicomReducerMulti (state : DICOMStateMulti) (action : DICOMActionMulti) :
    DICOMStateMulti :=
  match action with
  | .setLoading p => { state with isLoading := p }
  | .setError p => { state with error := p, isLoading := false }
  | .setSession p => { state with session := some p, error := none }
  | .setSelectedSeries p => { state with selectedSeries := some p }
  | .setFrames p => { state with frames := p, currentFrameIndex := 0 }
  | .setCurrentFrame p =>
      { state with
          currentFrameIndex := max 0 (min p ((state.frames.length : ℤ) - 1)) }
  | .setWindowWidth p => { state with windowWidth := p }
  | .setWindowLevel p => { state with windowLevel := p }
  | .setGridSize p => { state with gridSize := max 1 (min 2 p) }
  | .setCellSeries cellIndex seriesUid frameIndex =>
      { state with
          selectedSeriesForCells := setKey state.selectedSeriesForCells cellIndex ⟨seriesUid, frameIndex⟩ }
  | .setCellWindowLevel cellIndex ww wl =>
      { state with
          cellWindowLevels := setKey state.cellWindowLevels cellIndex ⟨ww, wl⟩ }
  | .setCellFrames cellIndex fs =>
      { state with cellFrames := setKey state.cellFrames cellIndex fs }
  | .nextFrame =>
      { state with
          currentFrameIndex := min (state.currentFrameIndex + 1) ((state.frames.length : ℤ) - 1) }
  | .prevFrame =>
      { state with currentFrameIndex := max (state.currentFrameIndex - 1) 0 }
  | .resetView =>
      { state with
          windowWidth := 400
          windowLevel := 50
          cellWindowLevels := defaultCellWindowLevels }

/-- The invariant claimed for `currentFrameIndex`: non-negative, at most
`frames.length - 1` when the frame list is non-empty, and exactly 0 when
the frame list is empty. -/
def frameIndexInvariant (frames : List DICOMFrame) (idx : ℤ) : Prop :=
  0 ≤ idx ∧ (frames ≠ [] → idx ≤ (frames.length : ℤ) - 1) ∧
    (frames = [] → idx = 0)

instance (frames : List DICOMFrame) (idx : ℤ) :
    Decidable (frameIndexInvariant frames idx) := by
  unfold frameIndexInvariant; infer_instance

/-- The invariant the reducers actually preserve: in-bounds when the frame
list is non-empty, but 0 or -1 when it is empty (NEXT_FRAME on an empty
list yields `Math.min(idx + 1, -1) = -1`). -/
def frameIndexWeakInvariant (frames : List DICOMFrame) (idx : ℤ) : Prop :=
  (frames ≠ [] → 0 ≤ idx ∧ idx ≤ (frames.length : ℤ) - 1) ∧
    (frames = [] → idx = 0 ∨ idx = -1)

instance (frames : List DICOMFrame) (idx : ℤ) :
    Decidable (frameIndexWeakInvariant frames idx) := by
  unfold frameIndexWeakInvariant; infer_instance

def stateFrameInvariant (s : DICOMState) : Prop :=
  frameIndexWeakInvariant s.frames s.currentFrameIndex

def stateFrameInvariantMulti (s : DICOMStateMulti) : Prop :=
  frameIndexWeakInvariant s.frames s.currentFrameIndex

instance (s : DICOMState) : Decidable (stateFrameInvariant s) := by
  unfold stateFrameInvariant; infer_instance

instance (s : DICOMStateMulti) : Decidable (stateFrameInvariantMulti s) := by
  unfold stateFrameInvariantMulti; infer_instance

lemma weakInv_iff (fs : List DICOMFrame) (idx : ℤ) :
    frameIndexWeakInvariant fs idx ↔
      ((fs.length ≠ 0 → 0 ≤ idx ∧ idx ≤ (fs.length : ℤ) - 1) ∧
        (fs.length = 0 → idx = 0 ∨ idx = -1)) := by
  unfold frameIndexWeakInvariant
  simp only [ne_eq, ← List.length_eq_zero]

lemma weakInv_setFrames (fs : List DICOMFrame) :
    frameIndexWeakInvariant fs 0 := by
  rw [weakInv_iff]
  refine ⟨fun h => ⟨le_refl 0, ?_⟩, fun _ => Or.inl rfl⟩
  omega

lemma weakInv_clamp (fs : List DICOMFrame) (p : ℤ) :
    frameIndexWeakInvariant fs (max 0 (min p ((fs.length : ℤ) - 1))) := by
  rw [weakInv_iff]
  constructor
  · intro h
    omega
  · intro h
    rw [h]
    omega

lemma weakInv_next (fs : List DICOMFrame) (idx : ℤ)
    (h : frameIndexWeakInvariant fs idx) :
    frameIndexWeakInvariant fs (min (idx + 1) ((fs.length : ℤ) - 1)) := by
  rw [weakInv_iff] at h ⊢
  rcases h with ⟨h1, h2⟩
  constructor
  · intro hne
    rcases h1 hne with ⟨ha, hb⟩
    omega
  · intro he
    rcases h2 he with h0 | h0 <;> rw [he, h0] <;> omega

lemma weakInv_prev (fs : List DICOMFrame) (idx : ℤ)
    (h : frameIndexWeakInvariant fs idx) :
    frameIndexWeakInvariant fs (max (idx - 1) 0) := by
  rw [weakInv_iff] at h ⊢
  rcases h with ⟨h1, h2⟩
  constructor
  · intro hne
    rcases h1 hne with ⟨ha, hb⟩
    omega
  · intro he
    rcases h2 he with h0 | h0 <;> rw [h0] <;> omega

/-- C2 counterexample: from the initial state (whose empty frame list and
index 0 satisfy the claimed invariant), dispatching NEXT_FRAME yields
`currentFrameIndex = Math.min(0 + 1, 0 - 1) = -1` in both store variants,
violating the claimed bounds invariant. -/
theorem nextFrame_empty_counterexample :
    frameIndexInvariant initialState.frames initialState.currentFrameIndex ∧
    (dicomReducer initialState .nextFrame).currentFrameIndex = -1 ∧
    ¬ frameIndexInvariant (dicomReducer initialState .nextFrame).frames
        (dicomReducer initialState .nextFrame).currentFrameIndex ∧
    (dicomReducerMulti initialStateMulti .nextFrame).currentFrameIndex = -1 ∧
    ¬ frameIndexInvariant
        (dicomReducerMulti initialStateMulti .nextFrame).frames
        (dicomReducerMulti initialStateMulti .nextFrame).currentFrameIndex := by
  refine ⟨by decide, by decide, ?_, by decide, ?_⟩ <;> decide

/-- C2 amended: every action of both reducers preserves the weakened
invariant "`0 ≤ currentFrameIndex ≤ frames.length - 1` when frames is
non-empty; `currentFrameIndex ∈ {0, -1}` when frames is empty", and the
initial states satisfy it; the value -1 (instead of the claimed 0) arises
exactly from NEXT_FRAME on an empty frame list. -/
theorem frameIndex_invariant_preserved :
    stateFrameInvariant initialState ∧
    stateFrameInvariantMulti initialStateMulti ∧
    (∀ (s : DICOMState) (a : DICOMAction),
      stateFrameInvariant s → stateFrameInvariant (dicomReducer s a)) ∧
    (∀ (s : DICOMStateMulti) (a : DICOMActionMulti),
      stateFrameInvariantMulti s →
        stateFrameInvariantMulti (dicomReducerMulti s a)) := by
  refine ⟨by decide, by decide, fun s a h => ?_, fun s a h => ?_⟩
  · cases a with
    | setFrames p => exact weakInv_setFrames p
    | setCurrentFrame p => exact weakInv_clamp s.frames p
    | nextFrame => exact weakInv_next s.frames s.currentFrameIndex h
    | prevFrame => exact weakInv_prev s.frames s.currentFrameIndex h
    | _ => exact h
  · cases a with
    | setFrames p => exact weakInv_setFrames p
    | setCurrentFrame p => exact weakInv_clamp s.frames p
    | nextFrame => exact weakInv_next s.frames s.currentFrameIndex h
    | prevFrame => exact weakInv_prev s.frames s.currentFrameIndex h
    | _ => exact h

theorem frameIndex_invariant_preserved_witness :
    stateFrameInvariant
      (dicomReducer initialState (.setCurrentFrame 7)) ∧
    stateFrameInvariantMulti
      (dicomReducerMulti initialStateMulti (.setCurrentFrame 7)) :=
  ⟨frameIndex_invariant_preserved.2.2.1 initialState (.setCurrentFrame 7)
      (by decide),
   frameIndex_invariant_preserved.2.2.2 initialStateMulti (.setCurrentFrame 7)
      (by decide)⟩

/-- C3: SET_CURRENT_FRAME always yields the clamped index
`max(0, min(payload, frames.length - 1))` in both store variants, and with
10 frames payload 15 yields 9 and payload -3 yields 0. -/
theorem setCurrentFrame_clamps (s : DICOMState) (sm : DICOMStateMulti)
    (p : ℤ) :
    (dicomReducer s (.setCurrentFrame p)).currentFrameIndex =
      max 0 (min p ((s.frames.length : ℤ) - 1)) ∧
    (dicomReducerMulti sm (.setCurrentFrame p)).currentFrameIndex =
      max 0 (min p ((sm.frames.length : ℤ) - 1)) ∧
    (s.frames.length = 10 →
      (dicomReducer s (.setCurrentFrame 15)).currentFrameIndex = 9 ∧
      (dicomReducer s (.setCurrentFrame (-3))).currentFrameIndex = 0) := by
  refine ⟨rfl, rfl, fun h => ⟨?_, ?_⟩⟩
  · show max 0 (min 15 ((s.frames.length : ℤ) - 1)) = 9
    rw [h]; decide
  · show max 0 (min (-3) ((s.frames.length : ℤ) - 1)) = 0
    rw [h]; decide

def frame0 : DICOMFrame := ⟨0, "", 0, 0⟩

def tenFrameState : DICOMState :=
  { initialState with frames := List.replicate 10 frame0 }

theorem setCurrentFrame_clamps_witness :
    (dicomReducer tenFrameState (.setCurrentFrame 15)).currentFrameIndex = 9 ∧
    (dicomReducer tenFrameState (.setCurrentFrame (-3))).currentFrameIndex
      = 0 :=
  (setCurrentFrame_clamps tenFrameState initialStateMulti 0).2.2 (by decide)

/-- C4 counterexample: in the single-select store variant
(DICOMContext.tsx) RESET_VIEW restores windowWidth/windowLevel to the
variant's defaults 1.0/1.0, not to 400/50 as claimed. -/
theorem resetView_fe_counterexample :
    (dicomReducer initialState .resetView).windowWidth = 1 ∧
    (dicomReducer initialState .resetView).windowLevel = 1 ∧
    (1 : ℚ) ≠ 400 ∧ (1 : ℚ) ≠ 50 := by
  refine ⟨rfl, rfl, by norm_num, by norm_num⟩

/-- C4 amended: in the multi-cell store variant RESET_VIEW sets
windowWidth = 400 and windowLevel = 50 and resets every per-cell entry of
cellWindowLevels to { windowWidth: 400, windowLevel: 50 }; in the
single-select variant RESET_VIEW restores its own defaults
windowWidth = 1.0, windowLevel = 1.0. -/
theorem resetView_defaults (s : DICOMState) (sm : DICOMStateMulti) :
    (dicomReducerMulti sm .resetView).windowWidth = 400 ∧
    (dicomReducerMulti sm .resetView).windowLevel = 50 ∧
    (dicomReducerMulti sm .resetView).cellWindowLevels =
      [(0, ⟨400, 50⟩), (1, ⟨400, 50⟩), (2, ⟨400, 50⟩), (3, ⟨400, 50⟩)] ∧
    (∀ q ∈ (dicomReducerMulti sm .resetView).cellWindowLevels,
      q.2 = CellWindowLevel.mk 400 50) ∧
    (dicomReducer s .resetView).windowWidth = 1 ∧
    (dicomReducer s .resetView).windowLevel = 1 := by
  refine ⟨rfl, rfl, rfl, ?_, rfl, rfl⟩
  intro q hq
  have : (dicomReducerMulti sm .resetView).cellWindowLevels =
      defaultCellWindowLevels := rfl
  rw [this] at hq
  simp only [defaultCellWindowLevels, List.mem_cons, List.mem_singleton,
    List.not_mem_nil, or_false] at hq
  rcases hq with h | h | h | h <;> rw [h]

theorem resetView_defaults_witness :
    ((0 : ℤ), CellWindowLevel.mk 400 50).2 = CellWindowLevel.mk 400 50 :=
  (resetView_defaults initialState initialStateMulti).2.2.2.1 _ (by decide)

/-- C6: SET_GRID_SIZE clamps into the supported inclusive range of each
variant ([1,4] in the single-select store, [1,2] in the multi-cell store):
the result is `max(1, min(maxSize, payload))`, payload 99 yields the
maximum, and any payload at or below the minimum yields 1. -/
theorem setGridSize_clamps (s : DICOMState) (sm : DICOMStateMulti) (p : ℤ) :
    (dicomReducer s (.setGridSize p)).gridSize = max 1 (min 4 p) ∧
    (dicomReducerMulti sm (.setGridSize p)).gridSize = max 1 (min 2 p) ∧
    1 ≤ (dicomReducer s (.setGridSize p)).gridSize ∧
    (dicomReducer s (.setGridSize p)).gridSize ≤ 4 ∧
    1 ≤ (dicomReducerMulti sm (.setGridSize p)).gridSize ∧
    (dicomReducerMulti sm (.setGridSize p)).gridSize ≤ 2 ∧
    (dicomReducer s (.setGridSize 99)).gridSize = 4 ∧
    (dicomReducerMulti sm (.setGridSize 99)).gridSize = 2 ∧
    (p ≤ 1 →
      (dicomReducer s (.setGridSize p)).gridSize = 1 ∧
      (dicomReducerMulti sm (.setGridSize p)).gridSize = 1) := by
  refine ⟨rfl, rfl, le_max_left 1 _, ?_, le_max_left 1 _, ?_,
    show max 1 (min 4 99) = 4 by decide,
    show max 1 (min 2 99) = 2 by decide, fun hp => ⟨?_, ?_⟩⟩
  · show max 1 (min 4 p) ≤ 4
    exact max_le (by norm_num) (min_le_left 4 p)
  · show max 1 (min 2 p) ≤ 2
    exact max_le (by norm_num) (min_le_left 2 p)
  · show max 1 (min 4 p) = 1
    exact max_eq_left (le_trans (min_le_right 4 p) hp)
  · show max 1 (min 2 p) = 1
    exact max_eq_left (le_trans (min_le_right 2 p) hp)

theorem setGridSize_clamps_witness :
    (dicomReducer initialState (.setGridSize 0)).gridSize = 1 ∧
    (dicomReducerMulti initialStateMulti (.setGridSize 0)).gridSize = 1 :=
  (setGridSize_clamps initialState initialStateMulti 0).2.2.2.2.2.2.2.2
    (by decide)

/-! Playback controller: the auto-play effect of `Controls`
(MetadataPanel.tsx). If not playing or the frame list is empty no interval
is installed, so a tick leaves the state unchanged; otherwise a tick
computes `(currentFrameIndex + 1) % frames.length` (JS `%` is the
truncated remainder, `Int.tmod`) and dispatches SET_CURRENT_FRAME with it
(the wiring in ViewerPage: `onFrameChange` dispatches SET_CURRENT_FRAME). -/
def controlsTick (state : DICOMState) : DICOMState :=
  if !state.isPlaying || state.frames.length == 0 then state
  else
    dicomReducer state
      (.setCurrentFrame
        (Int.tmod (state.currentFrameIndex + 1) (state.frames.length : ℤ)))

/-- C5: while playing with a non-empty frame list and an in-range index, a
playback tick advances `currentFrameIndex` to
`(currentFrameIndex + 1) mod frameCount` and changes nothing else (so at
frameCount = 5, index 4 a tick wraps to 0); with frameCount = 0 a tick is
a no-op rather than an error. -/
theorem playbackTick_wraps (s : DICOMState) :
    (s.isPlaying = true → 0 < s.frames.length → 0 ≤ s.currentFrameIndex →
      controlsTick s =
        { s with currentFrameIndex :=
            (s.currentFrameIndex + 1) % (s.frames.length : ℤ) }) ∧
    (s.frames.length = 0 → controlsTick s = s) := by
  constructor
  · intro hp hn hi
    have hstep : controlsTick s =
        dicomReducer s
          (.setCurrentFrame
            (Int.tmod (s.currentFrameIndex + 1) (s.frames.length : ℤ))) := by
      unfold controlsTick
      rw [hp]
      have hne : (s.frames.length == 0) = false :=
        beq_eq_false_iff_ne.mpr (Nat.pos_iff_ne_zero.mp hn)
      rw [hne]
      rfl
    rw [hstep]
    have hn0 : (0 : ℤ) < (s.frames.length : ℤ) := by exact_mod_cast hn
    have hm : Int.tmod (s.currentFrameIndex + 1) (s.frames.length : ℤ) =
        (s.currentFrameIndex + 1) % (s.frames.length : ℤ) :=
      Int.tmod_eq_emod (by omega) (by omega)
    have hnonneg : 0 ≤ (s.currentFrameIndex + 1) % (s.frames.length : ℤ) :=
      Int.emod_nonneg _ (by omega)
    have hlt : (s.currentFrameIndex + 1) % (s.frames.length : ℤ) <
        (s.frames.length : ℤ) := Int.emod_lt_of_pos _ hn0
    simp only [dicomReducer]
    rw [hm, min_eq_left (by omega), max_eq_right hnonneg]
  · intro h
    simp [controlsTick, h]

def playingState : DICOMState :=
  { initialState with
      frames := List.replicate 5 frame0
      currentFrameIndex := 4
      isPlaying := true }

theorem playbackTick_wraps_witness :
    controlsTick playingState =
      { playingState with currentFrameIndex := 0 } ∧
    controlsTick initialState = initialState := by
  constructor
  · have h := (playbackTick_wraps playingState).1 rfl (by decide) (by decide)
    rw [h]
    decide
  · exact (playbackTick_wraps initialState).2 (by decide)

/-! Uniform grid viewer (GridViewer.tsx): `imageIds` maps every frame to
its data URI; `loadGridImages` loads `imageIds[currentFrameIndex + i]`
into cell `i`'s canvas when that index is within the frame list and the
cell's canvas exists (the render mounts a canvas for cell `i` exactly when
`frames[currentFrameIndex + i]` exists); otherwise the cell is skipped and
stays blank. -/

def imageIdsOf (frames : List DICOMFrame) : List String :=
  frames.map (fun frame => "data:image/png;base64," ++ frame.data)

/-- The content composited into cell `i` of the uniform grid. -/
def gridCellImage (gridSize : ℕ) (frames : List DICOMFrame)
    (currentFrameIndex i : ℕ) : Option String :=
  let frameIndex := currentFrameIndex + i
  if i < gridSize * gridSize ∧ frameIndex < frames.length ∧
      (frames[frameIndex]?).isSome then
    (imageIdsOf frames)[frameIndex]?
  else none

lemma gridCellImage_eq (gridSize : ℕ) (frames : List DICOMFrame)
    (currentFrameIndex i : ℕ) :
    gridCellImage gridSize frames currentFrameIndex i =
      if i < gridSize * gridSize ∧ currentFrameIndex + i < frames.length ∧
          (frames[currentFrameIndex + i]?).isSome then
        (imageIdsOf frames)[currentFrameIndex + i]?
      else none := rfl

/-- C7: in the uniform grid viewer, for every grid size (gridSize² cells),
shared frame list and shared current index, cell `i` displays the data URI
of the frame at index `currentFrameIndex + i` exactly when that index is
within the frame list's bounds, and is left blank otherwise. -/
theorem gridViewer_cell_mapping (gridSize : ℕ) (frames : List DICOMFrame)
    (currentFrameIndex i : ℕ) (hc : i < gridSize * gridSize) :
    (currentFrameIndex + i < frames.length →
      ∃ frame, frames[currentFrameIndex + i]? = some frame ∧
        gridCellImage gridSize frames currentFrameIndex i =
          some ("data:image/png;base64," ++ frame.data)) ∧
    (frames.length ≤ currentFrameIndex + i →
      gridCellImage gridSize frames currentFrameIndex i = none) := by
  constructor
  · intro hlt
    have hf : frames[currentFrameIndex + i]? =
        some (frames.get ⟨currentFrameIndex + i, hlt⟩) := by
      rw [List.getElem?_eq_getElem hlt]
      rfl
    refine ⟨frames.get ⟨currentFrameIndex + i, hlt⟩, hf, ?_⟩
    rw [gridCellImage_eq, if_pos ⟨hc, hlt, by rw [hf]; rfl⟩]
    unfold imageIdsOf
    rw [List.getElem?_map, hf]
    rfl
  · intro hge
    rw [gridCellImage_eq, if_neg]
    intro h
    exact absurd h.2.1 (not_lt.mpr hge)

theorem gridViewer_cell_mapping_witness :
    gridCellImage 2 [frame0] 0 0 =
      some ("data:image/png;base64," ++ frame0.data) ∧
    gridCellImage 2 [frame0] 0 1 = none := by
  constructor
  · obtain ⟨frame, hf, himg⟩ :=
      (gridViewer_cell_mapping 2 [frame0] 0 0 (by decide)).1 (by decide)
    have hfr : frame = frame0 := by
      have h0 : [frame0][(0 : ℕ) + 0]? = some frame0 := rfl
      exact (Option.some_inj.mp (h0.symm.trans hf)).symm
    rw [himg, hfr]
  · exact (gridViewer_cell_mapping 2 [frame0] 0 1 (by decide)).2 (by decide)

/-! Per-cell series reassignment. `loadSeriesForCell` (part_003) returns
immediately when there is no session; otherwise it awaits the series fetch
and only then dispatches SET_CELL_SERIES followed by SET_CELL_FRAMES. The
function below returns the sequence of store states such a call produces:
the state while the fetch is pending (unchanged), the state after
SET_CELL_SERIES (new uid, still the old frame buffer) and the state after
SET_CELL_FRAMES (new uid, fetched buffer). -/
def loadSeriesForCellStates (state : DICOMStateMulti) (cellIndex : ℤ)
    (seriesUid : String) (frameIndex : ℤ)
    (fetchedFrames : List DICOMFrame) : List DICOMStateMulti :=
  match state.session with
  | none => [state]
  | some _ =>
    let afterSeries :=
      dicomReducerMulti state
        (.setCellSeries cellIndex seriesUid frameIndex)
    let afterFrames :=
      dicomReducerMulti afterSeries (.setCellFrames cellIndex fetchedFrames)
    [state, afterSeries, afterFrames]

/-- `GridControls.handleSeriesChange` reassigns a cell's series passing
frame index 0 to the store's `loadSeriesForCell`. -/
def handleSeriesChange (state : DICOMStateMulti) (cellIndex : ℤ)
    (seriesUid : String) (fetchedFrames : List DICOMFrame) :
    List DICOMStateMulti :=
  loadSeriesForCellStates state cellIndex seriesUid 0 fetchedFrames

lemma lookup_map_replace {α : Type} (k : ℤ) (v : α) :
    ∀ m : List (ℤ × α), m.any (fun q => q.1 == k) = true →
      List.lookup k (m.map (fun q => if q.1 == k then (k, v) else q)) =
        some v := by
  intro m
  induction m with
  | nil => intro h; simp at h
  | cons q t ih =>
    obtain ⟨a, b⟩ := q
    intro h
    by_cases hq : a = k
    · subst hq
      rw [List.map_cons, if_pos (by simp)]
      exact List.lookup_cons_self
    · have h' : t.any (fun q => q.1 == k) = true := by
        simpa [List.any_cons, hq] using h
      rw [List.map_cons, if_neg (by simp [hq])]
      rw [List.lookup_cons, beq_false_of_ne (Ne.symm hq)]
      exact ih h'

lemma lookup_append_new {α : Type} (k : ℤ) (v : α) :
    ∀ m : List (ℤ × α), m.any (fun q => q.1 == k) = false →
      List.lookup k (m ++ [(k, v)]) = some v := by
  intro m
  induction m with
  | nil => intro _; exact List.lookup_cons_self
  | cons q t ih =>
    obtain ⟨a, b⟩ := q
    intro h
    have hq : ¬ a = k := by
      intro he
      simp [List.any_cons, he] at h
    have h' : t.any (fun q => q.1 == k) = false := by
      simpa [List.any_cons, hq] using h
    rw [List.cons_append, List.lookup_cons, beq_false_of_ne (Ne.symm hq)]
    exact ih h'

lemma lookup_setKey {α : Type} (m : List (ℤ × α)) (k : ℤ) (v : α) :
    List.lookup k (setKey m k v) = some v := by
  unfold setKey
  split_ifs with h
  · exact lookup_map_replace k v m h
  · exact lookup_append_new k v m (eq_false_of_ne_true h)

def oldFrame : DICOMFrame := ⟨0, "OLD", 8, 8⟩

def newFrame : DICOMFrame := ⟨0, "NEW", 8, 8⟩

/-- A store state with an active session where cell 0 is assigned series
"A" at frame 3 and holds series A's frame buffer. -/
def reassignStartState : DICOMStateMulti :=
  { initialStateMulti with
      session := some ⟨"sess-1", [], [], 0⟩
      selectedSeriesForCells :=
        setKey initialStateMulti.selectedSeriesForCells 0 ⟨"A", 3⟩
      cellFrames := setKey initialStateMulti.cellFrames 0 [oldFrame] }

/-- C8 counterexample: reassigning cell 0 from series "A" to series "B"
leaves the store unchanged until the fetch resolves — the first state of
the call's trace still has cell 0 on series "A" with A's frame buffer, so
the old series' frames are still shown before the new fetch resolves;
moreover the intermediate state (after SET_CELL_SERIES, before
SET_CELL_FRAMES) pairs the new uid "B" with the old buffer. -/
theorem cellReassign_stale_counterexample :
    (handleSeriesChange reassignStartState 0 "B" [newFrame])[0]? =
      some reassignStartState ∧
    List.lookup 0 reassignStartState.cellFrames = some [oldFrame] ∧
    List.lookup 0 reassignStartState.selectedSeriesForCells =
      some ⟨"A", 3⟩ ∧
    (handleSeriesChange reassignStartState 0 "B" [newFrame])[1]? =
      some (dicomReducerMulti reassignStartState
        (.setCellSeries 0 "B" 0)) ∧
    List.lookup 0 (dicomReducerMulti reassignStartState
      (.setCellSeries 0 "B" 0)).selectedSeriesForCells = some ⟨"B", 0⟩ ∧
    List.lookup 0 (dicomReducerMulti reassignStartState
      (.setCellSeries 0 "B" 0)).cellFrames = some [oldFrame] := by
  refine ⟨?_, ?_, ?_, ?_, ?_, ?_⟩ <;> decide

/-- C8 amended: with an active session, reassigning a cell's series (the
GridControls path passes frame index 0) produces exactly three store
states: the unchanged state while the fetch is pending (so the old
series' frames remain shown until the fetch resolves), then the state
after SET_CELL_SERIES, then the final state in which the cell maps to the
new uid with frame index 0 and to the freshly fetched frame buffer. -/
theorem cellReassign_behavior (s : DICOMStateMulti) (cell : ℤ)
    (uid : String) (fetched : List DICOMFrame) (sess : DICOMSession)
    (hs : s.session = some sess) :
    handleSeriesChange s cell uid fetched =
      [s, dicomReducerMulti s (.setCellSeries cell uid 0),
        dicomReducerMulti (dicomReducerMulti s (.setCellSeries cell uid 0))
          (.setCellFrames cell fetched)] ∧
    (handleSeriesChange s cell uid fetched).head? = some s ∧
    List.lookup cell
      (dicomReducerMulti (dicomReducerMulti s (.setCellSeries cell uid 0))
        (.setCellFrames cell fetched)).selectedSeriesForCells =
      some ⟨uid, 0⟩ ∧
    List.lookup cell
      (dicomReducerMulti (dicomReducerMulti s (.setCellSeries cell uid 0))
        (.setCellFrames cell fetched)).cellFrames = some fetched := by
  have htrace : handleSeriesChange s cell uid fetched =
      [s, dicomReducerMulti s (.setCellSeries cell uid 0),
        dicomReducerMulti (dicomReducerMulti s (.setCellSeries cell uid 0))
          (.setCellFrames cell fetched)] := by
    unfold handleSeriesChange loadSeriesForCellStates
    rw [hs]
  refine ⟨htrace, by rw [htrace]; rfl, ?_, ?_⟩
  · exact lookup_setKey _ cell _
  · exact lookup_setKey _ cell _

theorem cellReassign_behavior_witness :
    (handleSeriesChange reassignStartState 0 "B" [newFrame]).head? =
      some reassignStartState ∧
    List.lookup 0
      (dicomReducerMulti
        (dicomReducerMulti reassignStartState (.setCellSeries 0 "B" 0))
        (.setCellFrames 0 [newFrame])).cellFrames = some [newFrame] := by
  have h := cellReassign_behavior reassignStartState 0 "B" [newFrame]
    ⟨"sess-1", [], [], 0⟩ rfl
  exact ⟨h.2.1, h.2.2.2⟩

/-! Stale-completion behaviour of the composite pipeline
(`loadAndDisplayImage`, Viewer2D.tsx). Each issued request creates an
image whose onload callback unconditionally draws to the canvas; there is
no request token, so the canvas ends up showing whichever request's
decode completed last. `requests` lists the issued (windowWidth,
windowLevel) pairs in issuance order; `completionOrder` lists the order
in which their decodes complete; the result is the final canvas
content. -/
def runCompositeSchedule (requests : List (ℚ × ℚ))
    (completionOrder : List ℕ) : Option (ℚ × ℚ) :=
  completionOrder.foldl
    (fun canvas j =>
      match requests[j]? with
      | some r => some r
      | none => canvas) none

/-- C9 counterexample: issuing (400,50) then (200,30) on the same canvas
and letting the first-issued decode complete last leaves (400,50) — the
superseded request's result — on the canvas, so last-issued-wins does not
hold for every completion order. -/
theorem composite_race_counterexample :
    List.Perm [1, 0] [0, 1] ∧
    runCompositeSchedule [(400, 50), (200, 30)] [1, 0] = some (400, 50) ∧
    some ((400, 50) : ℚ × ℚ) ≠ some ((200, 30) : ℚ × ℚ) := by
  refine ⟨by decide, rfl, by decide⟩

/-- C9 amended: the pipeline has no stale-completion guard, so completion
order (not issuance order) determines what persists: for any two requests
on one canvas, if decodes complete in issuance order the later-issued
request's result persists, but if the first-issued decode completes last
its stale result persists. -/
theorem composite_completion_order_wins (r1 r2 : ℚ × ℚ) :
    runCompositeSchedule [r1, r2] [0, 1] = some r2 ∧
    runCompositeSchedule [r1, r2] [1, 0] = some r1 := ⟨rfl, rfl⟩

end DicomViewer
